import Mathlib

/-!
Verification of the wsrpc client core (src/wsrpc.es6.js) against its
natural-language specification.  The JavaScript session object is embedded
shallowly: its mutable fields become a `State` record, each event handler or
public method becomes a state-transforming function, and JavaScript
exceptions become explicit error results.  Transport behaviour (the browser
WebSocket) is external: its `readyState` is mirrored in the `socket` field
and its events (`onopen`, `onclose`, `onerror`, `onmessage`) are the entry
points of the transition functions below.
-/

namespace WSRPC

/-- JSON-like values carried in protocol frames, call parameters and
settlement payloads.  JavaScript `undefined` flowing into a settlement is
rendered as `null`. -/
inductive JVal where
  | null
  | bool (b : Bool)
  | num (n : Int)
  | str (s : String)
deriving DecidableEq, Repr

/-- How a settled Deferred ended: resolved with a value or rejected with a
reason. -/
inductive Outcome where
  | resolvedWith (v : JVal)
  | rejectedWith (r : JVal)
deriving DecidableEq, Repr

/-- `Deferred` (source lines 1-27).  `done` is the field set by `wrapper`;
`outcome` records the one-shot settlement of the wrapped promise. -/
structure Deferred where
  done : Bool
  outcome : Option Outcome
deriving DecidableEq, Repr

/-- A freshly constructed Deferred: `done = false`, nothing settled. -/
def Deferred.new : Deferred := ⟨false, none⟩

/-- `promise.isPending` (line 24): `!self.done`. -/
def Deferred.isPending (d : Deferred) : Bool := !d.done

/-- `wrapper(resolve)` (lines 9-15): throws `'Promise already done'` when
`done` is already set, otherwise marks done and resolves. -/
def Deferred.resolve (d : Deferred) (v : JVal) : Except String Deferred :=
  if d.done then .error "Promise already done"
  else .ok ⟨true, some (.resolvedWith v)⟩

/-- `wrapper(reject)` (lines 9-15): throws `'Promise already done'` when
`done` is already set, otherwise marks done and rejects. -/
def Deferred.reject (d : Deferred) (r : JVal) : Except String Deferred :=
  if d.done then .error "Promise already done"
  else .ok ⟨true, some (.rejectedWith r)⟩

/-- Claim C9: a Single-Result Future is created pending; its first `resolve`
or `reject` transitions it to settled, any second invocation of either
raises, and `isPending` returns true exactly until the first settlement. -/
theorem deferred_single_settlement (v r : JVal) (d e : Deferred)
    (hd : d.isPending = false) (he : e.isPending = true) :
    Deferred.new.isPending = true
  ∧ Deferred.new.resolve v = .ok ⟨true, some (.resolvedWith v)⟩
  ∧ Deferred.new.reject r = .ok ⟨true, some (.rejectedWith r)⟩
  ∧ (Deferred.mk true (some (.resolvedWith v))).isPending = false
  ∧ (Deferred.mk true (some (.rejectedWith r))).isPending = false
  ∧ e.resolve v = .ok ⟨true, some (.resolvedWith v)⟩
  ∧ e.reject r = .ok ⟨true, some (.rejectedWith r)⟩
  ∧ d.resolve v = .error "Promise already done"
  ∧ d.reject r = .error "Promise already done" := by
  obtain ⟨db, do'⟩ := d
  obtain ⟨eb, eo⟩ := e
  simp [Deferred.isPending] at hd he
  subst hd he
  simp [Deferred.new, Deferred.isPending, Deferred.resolve, Deferred.reject]

/-- Concrete instance of the C9 theorem: a settled and a fresh Deferred. -/
theorem deferred_single_settlement_witness :
    (Deferred.mk true none).isPending = false
  ∧ Deferred.new.isPending = true
  ∧ (Deferred.mk true none).resolve .null = .error "Promise already done"
  ∧ Deferred.new.resolve .null = .ok ⟨true, some (.resolvedWith .null)⟩ := by
  have h := deferred_single_settlement .null .null ⟨true, none⟩ Deferred.new
    (by simp [Deferred.isPending]) (by simp [Deferred.new, Deferred.isPending])
  exact ⟨by simp [Deferred.isPending], h.1, h.2.2.2.2.2.2.2.1, h.2.1⟩

/-- An outbound call envelope (`callObj`, lines 329-333): `{id, method, params}`. -/
structure CallObj where
  id : Nat
  method : String
  params : JVal
deriving DecidableEq, Repr

/-- A registered route handler.  A synchronous handler either returns a value
or throws one; both carry `JVal` payloads. -/
def RouteFun : Type := JVal → Except JVal JVal

/-- Frames sent on the transport by the session. -/
inductive OutFrame where
  | call (c : CallObj)
  | result (id : Option Nat) (v : JVal)
  | errorReply (id : Option Nat) (e : JVal)
  | errFrame (msg : String) (id : Option Nat)
deriving DecidableEq, Repr

/-- An inbound frame after JSON decoding.  Field presence is modelled with
`Option`; `error? = some .null` is the `error === null` case the dispatcher
distinguishes. -/
structure Frame where
  id? : Option Nat
  method? : Option String
  params : JVal
  error? : Option JVal
  result? : Option JVal
deriving DecidableEq, Repr

/-- The four lifecycle event names of the event stores (lines 77-89). -/
inductive EvName where
  | onconnect
  | onerror
  | onclose
  | onchange
deriving DecidableEq, Repr

/-- `self.oneTimeEventStore` (lines 84-89): per-event queues of one-shot
Deferreds. -/
structure OneTimeStore where
  onconnect : List Deferred
  onerror : List Deferred
  onclose : List Deferred
  onchange : List Deferred

/-- JavaScript object assignment `obj[k] = v`: overwrite the binding when the
key exists, otherwise append it. -/
def objSet {κ β : Type} [BEq κ] (l : List (κ × β)) (k : κ) (v : β) :
    List (κ × β) :=
  if l.any (fun kv => kv.1 == k) then
    l.map (fun kv => if kv.1 == k then (k, v) else kv)
  else l ++ [(k, v)]

/-- The mutable fields of one WSRPC session (constructor, lines 68-91 and
357-360).  The durable `eventStore` listeners and the server-event listener
list only produce external effects, so they are not part of the state the
claims observe; the server-event listener list is modelled separately by
`addServerEventListener`/`removeServerEventListener` below.  `socket` mirrors
the readyState of the live transport (`none` when no transport is
installed). -/
structure State where
  id : Nat
  connectionNumber : Nat
  socketStarted : Bool
  socket : Option (Fin 4)
  store : List (Nat × Deferred)
  callQueue : List CallObj
  routes : List (String × RouteFun)
  asyncRoutes : List (String × Bool)
  oneTimeEventStore : OneTimeStore

/-- `stateCode()` (lines 397-401): the transport's readyState when a socket
was started and installed, else 3. -/
def stateCode (s : State) : Fin 4 :=
  if s.socketStarted then
    match s.socket with
    | some r => r
    | none => 3
  else 3

/-- The frozen `readyState` map (lines 61-66).  The argument is a readyState
code, always in 0..3. -/
def readyStateStr (r : Fin 4) : String :=
  if r.val = 0 then "CONNECTING"
  else if r.val = 1 then "OPEN"
  else if r.val = 2 then "CLOSING"
  else "CLOSED"

/-- `addRoute` (lines 365-368). -/
def addRoute (s : State) (route : String) (callback : RouteFun)
    (isAsync : Bool) : State :=
  { s with asyncRoutes := objSet s.asyncRoutes route isAsync,
           routes := objSet s.routes route callback }

/-- `deleteRoute` (lines 369-372).  JavaScript `delete` on a configurable or
absent property evaluates to `true`, which is the returned value. -/
def deleteRoute (s : State) (route : String) : State × Bool :=
  ({ s with asyncRoutes := s.asyncRoutes.filter (fun kv => kv.1 != route),
            routes := s.routes.filter (fun kv => kv.1 != route) }, true)

/-- The built-in `log` route (lines 414-416): logs and returns `undefined`. -/
def logRoute : RouteFun := fun _ => .ok .null

/-- The built-in `ping` route (lines 418-420): echoes its argument. -/
def pingRoute : RouteFun := fun v => .ok v

/-- The session state right after the constructor ran: counters reset, no
socket, empty stores, built-in routes `log` and `ping` registered. -/
def initState : State :=
  addRoute (addRoute
    { id := 1, connectionNumber := 0, socketStarted := false, socket := none,
      store := [], callQueue := [], routes := [], asyncRoutes := [],
      oneTimeEventStore := ⟨[], [], [], []⟩ }
    "log" logRoute false) "ping" pingRoute false

/-- `callEvents` (lines 176-188): each one-shot Deferred for the event is
shifted out of its queue and, when still pending, resolved as it leaves; the
durable listeners are then invoked with per-listener exception isolation.
The net effect on the session state is that the one-shot queue is drained. -/
def callEvents (s : State) (ev : EvName) : State :=
  match ev with
  | .onconnect =>
      { s with oneTimeEventStore := { s.oneTimeEventStore with onconnect := [] } }
  | .onerror =>
      { s with oneTimeEventStore := { s.oneTimeEventStore with onerror := [] } }
  | .onclose =>
      { s with oneTimeEventStore := { s.oneTimeEventStore with onclose := [] } }
  | .onchange =>
      { s with oneTimeEventStore := { s.oneTimeEventStore with onchange := [] } }

/-- The queue-draining loop of `rejectQueue` (lines 101-109): each queued
call's Deferred is looked up and deleted from the store; the removed
Deferred, when still pending, is rejected with `'WebSocket error occurred'`
as it leaves the state. -/
def dropQueued (store : List (Nat × Deferred)) : List CallObj →
    List (Nat × Deferred)
  | [] => store
  | c :: rest => dropQueued (store.filter (fun kv => kv.1 != c.id)) rest

/-- The in-place, `isPending`-guarded rejection used by the second loop of
`rejectQueue` (lines 112-119). -/
def rejectPendingWith (r : String) (d : Deferred) : Deferred :=
  if d.done then d else ⟨true, some (.rejectedWith (.str r))⟩

/-- `rejectQueue` (lines 96-120): increments `connectionNumber`, drains the
call queue (deleting and rejecting the matching store entries), then rejects
every still-pending Deferred left in the store in place. -/
def rejectQueue (s : State) : State :=
  { s with
    connectionNumber := s.connectionNumber + 1,
    callQueue := [],
    store := (dropQueued s.store s.callQueue).map
      (fun kv => (kv.1, rejectPendingWith "WebSocket error occurred" kv.2)) }

/-- `ws.onerror` (lines 152-161): `rejectQueue`, then fire `onerror` and
`onchange`. -/
def onerror (s : State) : State :=
  callEvents (callEvents (rejectQueue s) .onerror) .onchange

/-- Result of running the `ws.onclose` handler, which can abort with a
thrown exception; the carried state holds the mutations made before the
throw. -/
inductive CloseResult where
  | ok (s : State)
  | thrown (s : State) (msg : String)

/-- The state after the close handler, whether or not it threw. -/
def CloseResult.stateOf : CloseResult → State
  | .ok s => s
  | .thrown s _ => s

/-- The exception message of a close handler run, when it threw. -/
def CloseResult.errorMsg : CloseResult → Option String
  | .ok _ => none
  | .thrown _ m => some m

/-- The store loop at the top of `ws.onclose` (lines 139-144): every store
entry is rejected with `'Connection closed'` with no pending check (every
Deferred has a `reject` property, so the `hasOwnProperty` guard always
passes); a Deferred that is already done makes `reject` throw, aborting the
loop with the earlier rejections applied and the rest untouched. -/
def rejectStoreClosed : List (Nat × Deferred) →
    Sum (List (Nat × Deferred)) (List (Nat × Deferred) × String)
  | [] => .inl []
  | (k, d) :: rest =>
    if d.done then .inr ((k, d) :: rest, "Promise already done")
    else
      match rejectStoreClosed rest with
      | .inl r =>
          .inl ((k, ⟨true, some (.rejectedWith (.str "Connection closed"))⟩) :: r)
      | .inr (r, m) =>
          .inr ((k, ⟨true, some (.rejectedWith (.str "Connection closed"))⟩) :: r, m)

/-- `ws.onclose` (lines 135-150): reject every store entry with
`'Connection closed'`, then `rejectQueue`, then fire `onclose` and
`onchange`; finally a reconnect is scheduled (modelled separately as
`reconnectOk`/`reconnectFail`).  A throw from the unguarded store loop
aborts the handler before `rejectQueue` and the events run. -/
def onclose (s : State) : CloseResult :=
  match rejectStoreClosed s.store with
  | .inr (st, msg) => .thrown { s with store := st } msg
  | .inl st =>
      let s1 := rejectQueue { s with store := st }
      .ok (callEvents (callEvents s1 .onclose) .onchange)

/-- `ws.onopen` (lines 190-201): drain the call queue front-first, sending
each envelope on the socket, then fire `onconnect` and `onchange`. -/
def onopen (s : State) : State × List OutFrame :=
  (callEvents (callEvents { s with callQueue := [] } .onconnect) .onchange,
   s.callQueue.map OutFrame.call)

/-- `connect()` (lines 402-405): mark the socket started and install a fresh
transport, which begins in readyState 0 (CONNECTING).  `connectionNumber`
and `id` are not touched. -/
def connect (s : State) : State :=
  { s with socketStarted := true, socket := some 0 }

/-- The successful branch of the reconnect timer body (lines 124-126):
install a fresh transport (readyState 0) and reset the call id counter
to 1. -/
def reconnectOk (s : State) : State :=
  { s with socket := some 0, id := 1 }

/-- The failing branch of the reconnect timer body (lines 127-131): fire
`onerror` events and remove the socket. -/
def reconnectFail (s : State) : State :=
  { callEvents s .onerror with socket := none }

/-- What `makeCall` leaves behind: the updated session state, the frames the
call sent, the id the call was assigned, and the final state of the Deferred
returned to the caller. -/
structure MakeCallR where
  s : State
  sent : List OutFrame
  callId : Nat
  deferred : Deferred

/-- `makeCall` (lines 325-355): bump the id counter by 2, build the frozen
call envelope, then branch on the live state string: OPEN stores and sends;
CONNECTING stores and queues; otherwise a `noWait` call is rejected with
`'Socket is: <state>'` while a waiting call is stored and queued. -/
def makeCall (s : State) (func : String) (args : JVal) (noWait : Bool) :
    MakeCallR :=
  let s1 : State := { s with id := s.id + 2 }
  let deferred := Deferred.new
  let callObj : CallObj := ⟨s1.id, func, args⟩
  let st := readyStateStr (stateCode s1)
  if st = "OPEN" then
    ⟨{ s1 with store := objSet s1.store s1.id deferred },
     [OutFrame.call callObj], s1.id, deferred⟩
  else if st = "CONNECTING" then
    ⟨{ s1 with store := objSet s1.store s1.id deferred,
               callQueue := s1.callQueue ++ [callObj] }, [], s1.id, deferred⟩
  else if noWait then
    ⟨s1, [], s1.id, ⟨true, some (.rejectedWith (.str ("Socket is: " ++ st)))⟩⟩
  else
    ⟨{ s1 with store := objSet s1.store s1.id deferred,
               callQueue := s1.callQueue ++ [callObj] }, [], s1.id, deferred⟩

/-- Result of one dispatcher step: either a normal return with the frames
sent and the store Deferreds settled during the step, or a thrown exception
with the mutations made before the throw. -/
inductive DispatchR where
  | ok (s : State) (out : List OutFrame) (settled : List (Nat × Deferred))
  | thrown (s : State) (msg : String)

/-- `handleCall` (lines 203-249): unknown method throws
`'Route not found'`; an async route is invoked with the reply Deferred and
settles later (externally), sending nothing now; a sync route is invoked
immediately and its return value or thrown error settles the reply Deferred,
whose settlement callback sends the matching result or error frame (the
connection generation is unchanged within this synchronous step, so the
generation guard passes). -/
def handleCall (s : State) (i : Nat) (m : String) (p : JVal) : DispatchR :=
  match s.routes.lookup m with
  | none => .thrown s "Route not found"
  | some func =>
    if (s.asyncRoutes.lookup m).getD false then
      .ok s [] []
    else
      match func p with
      | .ok v => .ok s [.result (some i) v] []
      | .error e => .ok s [.errorReply (some i) e] []

/-- `handleError` (lines 251-263): no store entry for the id logs
`'Unknown callback'` and returns; otherwise the entry is deleted and its
Deferred rejected with the frame's error value, a rejection that throws when
the Deferred is already done. -/
def handleError (s : State) (i : Nat) (errVal : JVal) : DispatchR :=
  match s.store.lookup i with
  | none => .ok s [] []
  | some d =>
    let s' := { s with store := s.store.filter (fun kv => kv.1 != i) }
    match d.reject errVal with
    | .ok d' => .ok s' [] [(i, d')]
    | .error msg => .thrown s' msg

/-- `handleResult` (lines 265-276): no store entry logs
`'Confirmation without handler'`; otherwise the entry is deleted and its
Deferred resolved with `result` when that field is present, else rejected
with `error`. -/
def handleResult (s : State) (i : Nat) (f : Frame) : DispatchR :=
  match s.store.lookup i with
  | none => .ok s [] []
  | some d =>
    let s' := { s with store := s.store.filter (fun kv => kv.1 != i) }
    match f.result? with
    | some v =>
      match d.resolve v with
      | .ok d' => .ok s' [] [(i, d')]
      | .error msg => .thrown s' msg
    | none =>
      match d.reject (f.error?.getD .null) with
      | .ok d' => .ok s' [] [(i, d')]
      | .error msg => .thrown s' msg

/-- The classification inside the `try` of `ws.onmessage` (lines 290-309): a
frame without id goes to the server-event listeners (external effects only,
each isolated); a frame with a method is an inbound call; a frame whose
`error` field is present and null goes to `handleError`; everything else to
`handleResult`. -/
def onmessageE (s : State) (f : Frame) : DispatchR :=
  match f.id? with
  | none => .ok s [] []
  | some i =>
    match f.method? with
    | some m => handleCall s i m f.params
    | none =>
      if f.error? = some JVal.null then handleError s i JVal.null
      else handleResult s i f

/-- `ws.onmessage` (lines 278-320): the dispatch runs inside a `try`; a
thrown exception is answered with `{error: message, result: null, id}` using
the inbound frame's id, and the mutations made before the throw persist. -/
def onmessage (s : State) (f : Frame) :
    State × List OutFrame × List (Nat × Deferred) :=
  match onmessageE s f with
  | .ok s' out st => (s', out, st)
  | .thrown s' msg => (s', [OutFrame.errFrame msg f.id?], [])

/-- A sequence of public `call` invocations: each is `makeCall` on the state
the previous one left; the second component lists the assigned call ids in
issue order. -/
def issueCalls (s : State) : List (String × JVal × Bool) → State × List Nat
  | [] => (s, [])
  | (m, a, w) :: rest =>
    let r := makeCall s m a w
    let t := issueCalls r.s rest
    (t.1, r.callId :: t.2)

/-- The ids a run of `n` consecutive calls assigns when the counter starts
at `c`: `c+2, c+4, ...`. -/
def genIds (c : Nat) : Nat → List Nat
  | 0 => []
  | n + 1 => (c + 2) :: genIds (c + 2) n

/-- The envelopes a run of calls queues while CONNECTING, ids assigned from
counter `c`. -/
def genEnvs (c : Nat) : List (String × JVal × Bool) → List CallObj
  | [] => []
  | (m, a, _) :: rest => ⟨c + 2, m, a⟩ :: genEnvs (c + 2) rest

/-- `addServerEventListener` (lines 406-408) acting on the listener array:
`push` returns the new length, and the returned id is that length minus
one. -/
def addServerEventListener {α : Type} (l : List α) (callable : α) :
    List α × Nat :=
  (l ++ [callable], (l ++ [callable]).length - 1)

/-- `removeServerEventListener` (lines 409-411): `splice(index, 1)` removes
the element at the given position, shifting every later element down by one,
and the handler returns the length of the removed slice. -/
def removeServerEventListener {α : Type} (l : List α) (index : Nat) :
    List α × Nat :=
  (l.eraseIdx index, if index < l.length then 1 else 0)

/-! ## Helper lemmas -/

theorem lookup_filter_ne_self {κ β : Type} [BEq κ] [LawfulBEq κ]
    (l : List (κ × β)) (n : κ) :
    (l.filter (fun kv => kv.1 != n)).lookup n = none := by
  induction l with
  | nil => rfl
  | cons a l ih =>
    by_cases h : a.1 = n
    · simpa [List.filter_cons, h] using ih
    · have hna : (n == a.1) = false := by
        rw [beq_eq_false_iff_ne]
        exact fun hc => h hc.symm
      simp [List.filter_cons, h, List.lookup, bne_iff_ne, hna, ih]

theorem lookup_filter_ne_other {κ β : Type} [BEq κ] [LawfulBEq κ]
    (l : List (κ × β)) (n m : κ) (hmn : m ≠ n) :
    (l.filter (fun kv => kv.1 != n)).lookup m = l.lookup m := by
  induction l with
  | nil => rfl
  | cons a l ih =>
    by_cases h : a.1 = n
    · have hmn' : (m == n) = false := by
        rw [beq_eq_false_iff_ne]
        exact hmn
      simp [List.filter_cons, h, List.lookup, hmn', ih]
    · simp [List.filter_cons, h, List.lookup, bne_iff_ne, ih]

theorem callEvents_connectionNumber (s : State) (ev : EvName) :
    (callEvents s ev).connectionNumber = s.connectionNumber := by
  cases ev <;> rfl

theorem callEvents_callQueue (s : State) (ev : EvName) :
    (callEvents s ev).callQueue = s.callQueue := by
  cases ev <;> rfl

theorem callEvents_socket (s : State) (ev : EvName) :
    (callEvents s ev).socket = s.socket ∧
    (callEvents s ev).socketStarted = s.socketStarted := by
  cases ev <;> exact ⟨rfl, rfl⟩

theorem makeCall_counters (s : State) (m : String) (a : JVal) (w : Bool) :
    (makeCall s m a w).s.id = s.id + 2
  ∧ (makeCall s m a w).callId = s.id + 2
  ∧ (makeCall s m a w).s.connectionNumber = s.connectionNumber
  ∧ (makeCall s m a w).s.socket = s.socket
  ∧ (makeCall s m a w).s.socketStarted = s.socketStarted := by
  unfold makeCall
  dsimp only
  split
  · exact ⟨rfl, rfl, rfl, rfl, rfl⟩
  · split
    · exact ⟨rfl, rfl, rfl, rfl, rfl⟩
    · split
      · exact ⟨rfl, rfl, rfl, rfl, rfl⟩
      · exact ⟨rfl, rfl, rfl, rfl, rfl⟩

theorem stateCode_congr (s t : State) (h1 : t.socketStarted = s.socketStarted)
    (h2 : t.socket = s.socket) : stateCode t = stateCode s := by
  simp [stateCode, h1, h2]

/-- The session state a dispatcher step left behind, thrown or not. -/
def DispatchR.stateOf : DispatchR → State
  | .ok s _ _ => s
  | .thrown s _ => s

theorem handleCall_connectionNumber (s : State) (i : Nat) (m : String)
    (p : JVal) :
    (handleCall s i m p).stateOf.connectionNumber = s.connectionNumber := by
  unfold handleCall
  split
  · rfl
  · split
    · rfl
    · split <;> rfl

theorem handleError_connectionNumber (s : State) (i : Nat) (e : JVal) :
    (handleError s i e).stateOf.connectionNumber = s.connectionNumber := by
  unfold handleError
  split
  · rfl
  · dsimp only
    split <;> rfl

theorem handleResult_connectionNumber (s : State) (i : Nat) (f : Frame) :
    (handleResult s i f).stateOf.connectionNumber = s.connectionNumber := by
  unfold handleResult
  split
  · rfl
  · dsimp only
    split
    · split <;> rfl
    · split <;> rfl

theorem onmessage_fst (s : State) (f : Frame) :
    (onmessage s f).1 = (onmessageE s f).stateOf := by
  unfold onmessage
  cases h : onmessageE s f <;> simp [h, DispatchR.stateOf]

theorem onmessageE_connectionNumber (s : State) (f : Frame) :
    (onmessageE s f).stateOf.connectionNumber = s.connectionNumber := by
  unfold onmessageE
  split
  · rfl
  · split
    · exact handleCall_connectionNumber ..
    · split
      · exact handleError_connectionNumber ..
      · exact handleResult_connectionNumber ..

/-! ## Claim C3 -/

/-- Claim C3 counterexample: `connect` constructs a transport yet leaves the
generation counter unchanged, refuting "every call to connect ... increments
it". -/
theorem connect_generation_unchanged :
    ¬ ((connect initState).connectionNumber
        = initState.connectionNumber + 1) := by
  decide

/-- Claim C3 (amended): the connection generation counter is incremented
exactly by `rejectQueue` — hence once per transport error event and once
per completed close handler — while constructing a transport via `connect`
or the reconnect path, issuing calls, flushing on open, and inbound
dispatch all leave it unchanged. -/
theorem generation_incremented_by_rejectQueue_only (s : State) (m : String)
    (a : JVal) (w : Bool) (f : Frame) :
    (connect s).connectionNumber = s.connectionNumber
  ∧ (reconnectOk s).connectionNumber = s.connectionNumber
  ∧ (reconnectFail s).connectionNumber = s.connectionNumber
  ∧ (rejectQueue s).connectionNumber = s.connectionNumber + 1
  ∧ (onerror s).connectionNumber = s.connectionNumber + 1
  ∧ (∀ t, onclose s = .ok t → t.connectionNumber = s.connectionNumber + 1)
  ∧ (makeCall s m a w).s.connectionNumber = s.connectionNumber
  ∧ (onopen s).1.connectionNumber = s.connectionNumber
  ∧ (onmessage s f).1.connectionNumber = s.connectionNumber := by
  refine ⟨rfl, rfl, ?_, rfl, ?_, ?_, (makeCall_counters s m a w).2.2.1, ?_, ?_⟩
  · show (callEvents s .onerror).connectionNumber = s.connectionNumber
    exact callEvents_connectionNumber s .onerror
  · show (callEvents (callEvents (rejectQueue s) .onerror) .onchange).connectionNumber
      = s.connectionNumber + 1
    rw [callEvents_connectionNumber, callEvents_connectionNumber]
    rfl
  · intro t ht
    unfold onclose at ht
    rcases hr : rejectStoreClosed s.store with st | ⟨st, msg⟩ <;> rw [hr] at ht
    · cases ht
      rw [callEvents_connectionNumber, callEvents_connectionNumber]
      rfl
    · cases ht
  · show (callEvents (callEvents _ .onconnect) .onchange).connectionNumber
      = s.connectionNumber
    rw [callEvents_connectionNumber, callEvents_connectionNumber]
  · rw [onmessage_fst]
    exact onmessageE_connectionNumber s f

/-- Concrete instance of the amended C3 theorem: on the fresh session,
`connect` leaves the generation unchanged while an error event raises it by
one, and the state a completed close handler returns (here
`initState` with generation 1) also carries the incremented counter. -/
theorem generation_incremented_by_rejectQueue_only_witness :
    (connect initState).connectionNumber = initState.connectionNumber
  ∧ (onerror initState).connectionNumber = initState.connectionNumber + 1
  ∧ ({ initState with connectionNumber := 1 } : State).connectionNumber
      = initState.connectionNumber + 1 := by
  have h := generation_incremented_by_rejectQueue_only initState "m" .null
    false ⟨none, none, .null, none, none⟩
  exact ⟨h.1, h.2.2.2.2.1,
    h.2.2.2.2.2.1 { initState with connectionNumber := 1 } rfl⟩

/-! ## Claim C4 -/

/-- Claim C4 counterexample: on the freshly constructed session no route
named "nosuch" exists, yet `deleteRoute "nosuch"` returns `true`, refuting
"returns ... false if it did not". -/
theorem deleteRoute_true_on_missing :
    ¬ ((deleteRoute initState "nosuch").2
        = (initState.routes.lookup "nosuch").isSome) := by
  decide

/-- Claim C4 (amended): `deleteRoute` removes the route (and its async flag)
when present, leaves every other route untouched, and always returns `true`
whether or not the route existed, because JavaScript `delete` evaluates to
`true` on configurable or absent properties. -/
theorem deleteRoute_removes_and_returns_true (s : State) (n m : String)
    (hmn : m ≠ n) :
    (deleteRoute s n).2 = true
  ∧ (deleteRoute s n).1.routes.lookup n = none
  ∧ (deleteRoute s n).1.asyncRoutes.lookup n = none
  ∧ (deleteRoute s n).1.routes.lookup m = s.routes.lookup m
  ∧ (deleteRoute s n).1.asyncRoutes.lookup m = s.asyncRoutes.lookup m := by
  refine ⟨rfl, ?_, ?_, ?_, ?_⟩
  · exact lookup_filter_ne_self s.routes n
  · exact lookup_filter_ne_self s.asyncRoutes n
  · exact lookup_filter_ne_other s.routes n m hmn
  · exact lookup_filter_ne_other s.asyncRoutes n m hmn

/-- Concrete instance of the amended C4 theorem: deleting `ping` returns
true, removes it, and leaves `log` registered. -/
theorem deleteRoute_removes_and_returns_true_witness :
    (deleteRoute initState "ping").2 = true
  ∧ ((deleteRoute initState "ping").1.routes.lookup "ping").isNone = true
  ∧ ((deleteRoute initState "ping").1.routes.lookup "log").isSome = true := by
  have h := deleteRoute_removes_and_returns_true initState "ping" "log"
    (by decide)
  refine ⟨h.1, by rw [h.2.1]; rfl, ?_⟩
  rw [h.2.2.2.1]
  rfl

/-! ## Claim C7 -/

/-- Claim C7: a call issued with `noWait = true` while the state is CLOSED
is rejected synchronously with the state-describing reason
`'Socket is: CLOSED'`, nothing is sent, and neither the pending-call store
nor the outbound queue gains an entry. -/
theorem noWait_closed_rejected (s : State) (m : String) (a : JVal)
    (h : stateCode s = 3) :
    (makeCall s m a true).deferred
      = ⟨true, some (.rejectedWith (.str "Socket is: CLOSED"))⟩
  ∧ (makeCall s m a true).s.store = s.store
  ∧ (makeCall s m a true).s.callQueue = s.callQueue
  ∧ (makeCall s m a true).sent = [] := by
  have hs : readyStateStr (stateCode { s with id := s.id + 2 }) = "CLOSED" := by
    rw [stateCode_congr s { s with id := s.id + 2 } rfl rfl, h]
    rfl
  unfold makeCall
  dsimp only
  rw [hs, if_neg (by decide), if_neg (by decide), if_pos rfl]
  exact ⟨rfl, rfl, rfl, rfl⟩

/-- Concrete instance of the C7 theorem: the fresh session has never started
a socket, so its state is CLOSED, and a noWait call is rejected without
touching the store or queue. -/
theorem noWait_closed_rejected_witness :
    stateCode initState = 3
  ∧ (makeCall initState "doStuff" .null true).deferred
      = ⟨true, some (.rejectedWith (.str "Socket is: CLOSED"))⟩
  ∧ (makeCall initState "doStuff" .null true).s.store = initState.store
  ∧ (makeCall initState "doStuff" .null true).sent = [] := by
  have h := noWait_closed_rejected initState "doStuff" .null rfl
  exact ⟨rfl, h.1, h.2.1, h.2.2.2⟩

/-! ## Claim C1 -/

theorem issueCalls_ids (s : State) (cs : List (String × JVal × Bool)) :
    (issueCalls s cs).2 = genIds s.id cs.length := by
  induction cs generalizing s with
  | nil => rfl
  | cons c rest ih =>
    obtain ⟨m, a, w⟩ := c
    have hc := makeCall_counters s m a w
    simp only [issueCalls, List.length_cons, genIds]
    rw [ih (makeCall s m a w).s, hc.1, hc.2.1]

theorem genIds_lt (c n : Nat) : ∀ x ∈ genIds c n, c < x := by
  induction n generalizing c with
  | zero => simp [genIds]
  | succ n ih =>
    intro x hx
    simp only [genIds, List.mem_cons] at hx
    rcases hx with h | h
    · omega
    · have := ih (c + 2) x h
      omega

theorem genIds_chain (c n : Nat) :
    List.Chain' (fun a b => b = a + 2) (genIds c n) := by
  induction n generalizing c with
  | zero => simp [genIds]
  | succ n ih =>
    cases n with
    | zero => simp [genIds]
    | succ k =>
      exact List.Chain'.cons rfl (ih (c + 2))

theorem genIds_nodup (c n : Nat) : (genIds c n).Nodup := by
  induction n generalizing c with
  | zero => simp [genIds]
  | succ n ih =>
    rw [genIds]
    refine List.nodup_cons.mpr ⟨?_, ih (c + 2)⟩
    intro hmem
    have := genIds_lt (c + 2) n _ hmem
    omega

/-- A session whose transport is established and OPEN (readyState 1). -/
def openState : State :=
  { initState with socketStarted := true, socket := some 1 }

/-- Claim C1 counterexample: a call made while OPEN gets id 3; after the
transport closes and the reconnect timer reinstalls a socket (which resets
the id counter to 1), the next call gets id 3 again — two distinct calls in
one process lifetime share an id across a reconnection. -/
theorem callId_reused_after_reconnect :
    (makeCall openState "a" .null false).callId = 3
  ∧ (makeCall (reconnectOk (CloseResult.stateOf
      (onclose (makeCall openState "a" .null false).s))) "b" .null
      false).callId = 3 := ⟨rfl, rfl⟩

/-- Claim C1 (amended): along any run of calls with no intervening
reconnect, the assigned ids are `id+2, id+4, ...`: they strictly increase by
2 each time and are pairwise distinct.  The reconnect path resets the
counter to 1, so ids can repeat across reconnections. -/
theorem callIds_strictly_increase_between_reconnects (s : State)
    (cs : List (String × JVal × Bool)) :
    (issueCalls s cs).2 = genIds s.id cs.length
  ∧ List.Chain' (fun a b => b = a + 2) (issueCalls s cs).2
  ∧ (issueCalls s cs).2.Nodup := by
  have h := issueCalls_ids s cs
  exact ⟨h, h ▸ genIds_chain s.id cs.length, h ▸ genIds_nodup s.id cs.length⟩

/-! ## Claim C8 -/

theorem makeCall_connecting (s : State) (m : String) (a : JVal) (w : Bool)
    (h : stateCode s = 0) :
    (makeCall s m a w).s.callQueue = s.callQueue ++ [⟨s.id + 2, m, a⟩]
  ∧ (makeCall s m a w).s.store = objSet s.store (s.id + 2) Deferred.new
  ∧ (makeCall s m a w).sent = [] := by
  have hs : readyStateStr (stateCode { s with id := s.id + 2 })
      = "CONNECTING" := by
    rw [stateCode_congr s { s with id := s.id + 2 } rfl rfl, h]
    rfl
  unfold makeCall
  dsimp only
  rw [hs, if_neg (by decide), if_pos rfl]
  exact ⟨rfl, rfl, rfl⟩

theorem issueCalls_connecting_queue (s : State)
    (cs : List (String × JVal × Bool)) (h : stateCode s = 0) :
    (issueCalls s cs).1.callQueue = s.callQueue ++ genEnvs s.id cs
  ∧ stateCode (issueCalls s cs).1 = 0 := by
  induction cs generalizing s with
  | nil => simpa [issueCalls, genEnvs] using h
  | cons c rest ih =>
    obtain ⟨m, a, w⟩ := c
    have hc := makeCall_counters s m a w
    have hsc : stateCode (makeCall s m a w).s = 0 :=
      (stateCode_congr s (makeCall s m a w).s hc.2.2.2.2 hc.2.2.2.1).trans h
    have ihr := ih (makeCall s m a w).s hsc
    have hq : (makeCall s m a w).s.callQueue
        = s.callQueue ++ [⟨s.id + 2, m, a⟩] :=
      (makeCall_connecting s m a w h).1
    refine ⟨?_, ihr.2⟩
    show (issueCalls (makeCall s m a w).s rest).1.callQueue = _
    rw [ihr.1, hq, hc.1]
    simp [genEnvs]

/-- Claim C8: every call issued while CONNECTING is appended to the outbound
queue in issue order, and the open handler transmits the queued envelopes in
exactly that order and leaves the queue empty. -/
theorem connecting_calls_queued_and_flushed_in_order (s : State)
    (cs : List (String × JVal × Bool)) (h : stateCode s = 0) :
    (issueCalls s cs).1.callQueue = s.callQueue ++ genEnvs s.id cs
  ∧ (onopen (issueCalls s cs).1).2
      = ((issueCalls s cs).1.callQueue).map OutFrame.call
  ∧ (onopen (issueCalls s cs).1).1.callQueue = [] := by
  refine ⟨(issueCalls_connecting_queue s cs h).1, rfl, ?_⟩
  show (callEvents (callEvents _ .onconnect) .onchange).callQueue = []
  rw [callEvents_callQueue, callEvents_callQueue]

/-- A session whose transport is installed and still CONNECTING
(readyState 0). -/
def connState : State :=
  { initState with socketStarted := true, socket := some 0 }

/-- Concrete instance of the C8 theorem: two calls issued while CONNECTING
are queued with ids 3 and 5 and flushed in that order on open. -/
theorem connecting_calls_queued_and_flushed_in_order_witness :
    stateCode connState = 0
  ∧ (issueCalls connState [("a", .null, false), ("b", .null, true)]).1.callQueue
      = connState.callQueue
        ++ genEnvs connState.id [("a", .null, false), ("b", .null, true)]
  ∧ (onopen (issueCalls connState
      [("a", .null, false), ("b", .null, true)]).1).2
      = ((issueCalls connState
          [("a", .null, false), ("b", .null, true)]).1.callQueue).map
        OutFrame.call
  ∧ (onopen (issueCalls connState
      [("a", .null, false), ("b", .null, true)]).1).1.callQueue = [] := by
  have h := connecting_calls_queued_and_flushed_in_order connState
    [("a", .null, false), ("b", .null, true)] rfl
  exact ⟨rfl, h.1, h.2.1, h.2.2⟩

/-! ## Claim C5 -/

/-- Claim C5: an inbound call frame whose method has no route makes the
dispatcher send exactly one failure reply frame carrying the original
inbound id; the `Route not found` failure is caught by the message handler
rather than escaping, and the session state — the route table included — is
unchanged. -/
theorem route_not_found_single_error_reply (s : State) (i : Nat) (m : String)
    (p : JVal) (e rv : Option JVal) (h : s.routes.lookup m = none) :
    onmessage s ⟨some i, some m, p, e, rv⟩
      = (s, [OutFrame.errFrame "Route not found" (some i)], [])
  ∧ (onmessage s ⟨some i, some m, p, e, rv⟩).1.routes = s.routes := by
  have hd : onmessageE s ⟨some i, some m, p, e, rv⟩
      = .thrown s "Route not found" := by
    simp [onmessageE, handleCall, h]
  exact ⟨by simp [onmessage, hd], by simp [onmessage, hd]⟩

/-- Concrete instance of the C5 theorem: the fresh session has no
`doStuff` route; the inbound call with id 7 is answered by a single error
frame for id 7 and the state stays `initState`. -/
theorem route_not_found_single_error_reply_witness :
    initState.routes.lookup "doStuff" = none
  ∧ onmessage initState ⟨some 7, some "doStuff", .null, none, none⟩
      = (initState, [OutFrame.errFrame "Route not found" (some 7)], [])
  ∧ (onmessage initState ⟨some 7, some "doStuff", .null, none, none⟩).1.routes
      = initState.routes := by
  have h := route_not_found_single_error_reply initState 7 "doStuff" .null
    none none rfl
  exact ⟨rfl, h.1, h.2⟩

/-! ## Claim C6 -/

/-- Claim C6: an inbound frame with an id, no method, and `error` equal to
null is routed to the pending-call store: when a pending call with that id
exists its future is rejected (with the null error) and the entry removed,
with no reply frame; when none exists the frame is discarded with no state
change and no reply frame. -/
theorem null_error_frame_rejects_or_discards (s : State) (i : Nat) (p : JVal)
    (rv : Option JVal) :
    (s.store.lookup i = none →
      onmessage s ⟨some i, none, p, some .null, rv⟩ = (s, [], []))
  ∧ (∀ d, s.store.lookup i = some d → d.done = false →
      onmessage s ⟨some i, none, p, some .null, rv⟩
        = ({ s with store := s.store.filter (fun kv => kv.1 != i) }, [],
           [(i, ⟨true, some (.rejectedWith .null)⟩)])) := by
  constructor
  · intro h
    simp [onmessage, onmessageE, handleError, h]
  · intro d h hd
    simp [onmessage, onmessageE, handleError, h, Deferred.reject, hd]

/-- A session with one pending call, id 5, in the store. -/
def pendingState : State := { initState with store := [(5, Deferred.new)] }

/-- Concrete instance of the C6 theorem: with no pending call the frame is
discarded without a reply; with pending call 5 its future is rejected with
null and removed. -/
theorem null_error_frame_rejects_or_discards_witness :
    onmessage initState ⟨some 5, none, .null, some .null, none⟩
      = (initState, [], [])
  ∧ onmessage pendingState ⟨some 5, none, .null, some .null, none⟩
      = ({ pendingState with
            store := pendingState.store.filter (fun kv => kv.1 != 5) }, [],
         [(5, ⟨true, some (.rejectedWith .null)⟩)]) := by
  exact ⟨(null_error_frame_rejects_or_discards initState 5 .null none).1 rfl,
    (null_error_frame_rejects_or_discards pendingState 5 .null none).2
      Deferred.new rfl rfl⟩

/-! ## Claim C2 -/

/-- The session after one call was issued while OPEN: the store holds the
call's pending Deferred and the queue is empty. -/
def errorThenCloseState : State := (makeCall openState "m" .null false).s

/-- Claim C2 evidence: the first run of the rejection path (a close event on
a pending call) completes without throwing, but running it a second time in
succession — an error event, whose `rejectQueue` settles the stored
Deferred, followed by a close event — makes the close handler's unguarded
store loop call `reject` on an already-settled Deferred, which throws
`'Promise already done'` instead of being a no-op. -/
theorem second_rejection_path_throws :
    (onclose errorThenCloseState).errorMsg = none
  ∧ (onclose (onerror errorThenCloseState)).errorMsg
      = some "Promise already done" := ⟨rfl, rfl⟩

/-! ## Claim C10 -/

/-- Claim C10: `removeServerEventListener i` erases the listener at position
`i` and shifts every later listener down one position, so an id `j > i`
handed out earlier now refers to the listener formerly at `j + 1` — no
longer the one it identified (given pairwise-distinct listeners); and since
position 0 holds the built-in logging listener, the first
`addServerEventListener` returns id 1. -/
theorem removeServerEventListener_shifts {α : Type} (b f : α) (l : List α)
    (i j : Nat) (hij : i < j) (hj : j < l.length) (hnd : l.Nodup) :
    (addServerEventListener [b] f).2 = 1
  ∧ (removeServerEventListener l i).1 = l.eraseIdx i
  ∧ ((removeServerEventListener l i).1)[j - 1]? = l[j]?
  ∧ ((removeServerEventListener l i).1)[j]? ≠ some (l.get ⟨j, hj⟩) := by
  refine ⟨rfl, rfl, ?_, ?_⟩
  · show (l.eraseIdx i)[j - 1]? = l[j]?
    rw [List.getElem?_eraseIdx_of_ge l i (j - 1) (by omega)]
    congr 1
    omega
  · show (l.eraseIdx i)[j]? ≠ some (l.get ⟨j, hj⟩)
    rw [List.getElem?_eraseIdx_of_ge l i j (by omega)]
    by_cases hj1 : j + 1 < l.length
    · rw [List.getElem?_eq_getElem hj1]
      intro hc
      have hg : l[j + 1] = l[j] := by
        simpa [List.get_eq_getElem] using Option.some.inj hc
      have := (hnd.getElem_inj_iff).mp hg
      omega
    · rw [List.getElem?_eq_none (by omega)]
      exact Option.noConfusion

/-- Concrete instance of the C10 theorem on listener tokens `[0, 1, 2, 3]`:
removing position 1 leaves `[0, 2, 3]`, so old id 2 now names token 3, and
the first add after the built-in returns id 1. -/
theorem removeServerEventListener_shifts_witness :
    (addServerEventListener [0] 9).2 = 1
  ∧ (removeServerEventListener [0, 1, 2, 3] 1).1 = [0, 1, 2, 3].eraseIdx 1
  ∧ ((removeServerEventListener [0, 1, 2, 3] 1).1)[1]? = [0, 1, 2, 3][2]?
  ∧ ((removeServerEventListener [0, 1, 2, 3] 1).1)[2]?
      ≠ some ([0, 1, 2, 3].get ⟨2, by decide⟩) := by
  have h := removeServerEventListener_shifts 0 9 [0, 1, 2, 3] 1 2
    (by decide) (by decide) (by decide)
  exact ⟨h.1, h.2.1, h.2.2.1, h.2.2.2⟩

end WSRPC
